import Mathlib

/-!
Shallow embedding of the `dialog-rs` crate: the argument serializer, the
process-invocation wrapper and the exit-code classifiers of the `Dialog`
backend (`src/backends/dialog.rs`), together with the dialog-box data model
(`src/lib.rs`) and the backend registry (`src/backends/mod.rs`).

Conventions of the embedding:
- `process::ExitStatus` is modelled by its `code()` view, an `Option Int`
  (`none` when the process was killed by a signal); `status.success()` holds
  exactly when the code is `some 0`.
- `process::Output` keeps the exit status and the raw captured standard-error
  bytes (`List Nat`, each entry a byte value).
- Spawning the external program is an effect; it is passed in as an oracle
  `spawn : List String → Option Output` where `none` models an OS-level spawn
  failure (`Command::output()` returning `Err`).
- A Rust panic (the `unwrap` in `get_choices`) is modelled by returning `none`
  at the outermost `Option` layer of the classifier.
- Rust `u8`/`u32` `to_string` is modelled by `natRepr` (decimal, no leading
  zeros); `rustToLowercase` models `str::to_lowercase` (ASCII case mapping).
-/

namespace DialogRs

/-! ### Decimal rendering and parsing -/

/-- Digits of `n` in base 10, most significant first, running on explicit fuel
so that the definition is structural (`fuel = n + 1` always suffices). -/
def natDigitsRec (fuel n : Nat) : List Char :=
  match fuel with
  | 0 => []
  | fuel + 1 =>
    if n < 10 then [Char.ofNat (48 + n)]
    else natDigitsRec fuel (n / 10) ++ [Char.ofNat (48 + n % 10)]

/-- Decimal digits of `n`, most significant first. -/
def natDigits (n : Nat) : List Char := natDigitsRec (n + 1) n

/-- Decimal rendering of a natural number; models Rust `to_string()` on the
unsigned integer fields (`u8` rows, columns, widths, percentages, `u32`
heights). -/
def natRepr (n : Nat) : String := String.mk (natDigits n)

/-- Fold a digit list into the number it denotes. -/
def parseNatFold (cs : List Char) (acc : Nat) : Nat :=
  cs.foldl (fun a c => a * 10 + (c.toNat - 48)) acc

/-- Parse a decimal numeral: every character must be a digit and the string
must be nonempty. -/
def natParse (s : String) : Option Nat :=
  if s.toList.all Char.isDigit && !s.toList.isEmpty then some (parseNatFold s.toList 0)
  else none

/-- `str::to_lowercase`, restricted to the ASCII case mapping. -/
def rustToLowercase (s : String) : String := String.mk (s.toList.map Char.toLower)

/-! ### Splitting on whitespace

The parsing direction of the form round-trip claim; it follows the spec's
words ("parsing that group back by splitting on whitespace"), with the
semantics of Rust's `split_whitespace`: maximal nonempty runs of
non-whitespace characters. -/

/-- Emit the pending (reversed) token accumulator, if nonempty. -/
def emitTok (acc : List Char) : List (List Char) :=
  if acc = [] then [] else [acc.reverse]

/-- Worker for `splitWhitespace`: walks the character list keeping the current
token reversed in `acc`. -/
def splitWSAux : List Char → List Char → List (List Char)
  | [], acc => emitTok acc
  | c :: rest, acc =>
    if c.isWhitespace then emitTok acc ++ splitWSAux rest []
    else splitWSAux rest (c :: acc)

/-- Split a string into its maximal whitespace-free nonempty runs. -/
def splitWhitespace (s : String) : List String :=
  (splitWSAux s.toList []).map String.mk

/-! ### UTF-8 decoding

`String::from_utf8` on the captured error-stream bytes.  The decoder accepts
exactly the well-formed UTF-8 byte sequences (no overlong encodings, no
surrogate code points, nothing above U+10FFFF), mirroring Rust's validation. -/

/-- Is `b` a UTF-8 continuation byte (`10xxxxxx`)? -/
def isContByte (b : Nat) : Bool := 128 ≤ b && b ≤ 191

/-- Decode a byte list into the list of code points it encodes, or `none` if
the bytes are not valid UTF-8. -/
def utf8DecodeCps : List Nat → Option (List Nat)
  | [] => some []
  | b :: rest =>
    if b ≤ 127 then
      match utf8DecodeCps rest with
      | some cps => some (b :: cps)
      | none => none
    else if 194 ≤ b && b ≤ 223 then
      match rest with
      | c1 :: r =>
        if isContByte c1 then
          match utf8DecodeCps r with
          | some cps => some (((b - 192) * 64 + (c1 - 128)) :: cps)
          | none => none
        else none
      | [] => none
    else if 224 ≤ b && b ≤ 239 then
      match rest with
      | c1 :: c2 :: r =>
        if (if b = 224 then 160 ≤ c1 && c1 ≤ 191
            else if b = 237 then 128 ≤ c1 && c1 ≤ 159
            else isContByte c1) && isContByte c2 then
          match utf8DecodeCps r with
          | some cps => some (((b - 224) * 4096 + (c1 - 128) * 64 + (c2 - 128)) :: cps)
          | none => none
        else none
      | _ => none
    else if 240 ≤ b && b ≤ 244 then
      match rest with
      | c1 :: c2 :: c3 :: r =>
        if (if b = 240 then 144 ≤ c1 && c1 ≤ 191
            else if b = 244 then 128 ≤ c1 && c1 ≤ 143
            else isContByte c1) && isContByte c2 && isContByte c3 then
          match utf8DecodeCps r with
          | some cps =>
            some (((b - 240) * 262144 + (c1 - 128) * 4096 + (c2 - 128) * 64 + (c3 - 128)) :: cps)
          | none => none
        else none
      | _ => none
    else none

/-- `String::from_utf8` on the captured bytes: `none` models the `Err` case
(which the source `unwrap`s). -/
def utf8Decode (bytes : List Nat) : Option String :=
  match utf8DecodeCps bytes with
  | some cps => some (String.mk (cps.map Char.ofNat))
  | none => none

/-! ### Data model (`src/lib.rs`) -/

/-- A user choice in a dialog box (`enum Choice`). -/
inductive Choice where
  | Yes : Choice
  | No : Choice
  | Cancel : Choice
  | Extra : Choice
  | Help : Choice
  | Escape : Choice
deriving DecidableEq, Repr

/-- Modelled from the spec: the crate declares `mod error;` but `src/error.rs`
is not in the source tree, so the error type follows the spec's error
taxonomy (section 7): `SpawnError` for a process that could not be started
(`Error::IoError` wrapping the OS error), `ExternalToolFailed` carrying the
tool name and exit status (built in the source by
`Error::from(("dialog", status))`), `InvalidPath` for a file-selection path
that does not resolve to an existing directory (raised in the source via
`ok_or("path not valid")`), and `InvalidEncoding`, which the spec names as
currently unhandled by the source. -/
inductive Error where
  | SpawnError : Error
  | ExternalToolFailed (tool : String) (status : Option Int) : Error
  | InvalidPath : Error
  | InvalidEncoding : Error
deriving DecidableEq, Repr

/-- `process::Output`: the exit status as its `code()` view (`none` when the
process was signal-killed) and the captured standard-error bytes. -/
structure Output where
  status : Option Int
  stderr : List Nat
deriving DecidableEq, Repr

/-- `struct Input`: a text input dialog. -/
structure Input where
  text : String
  default : Option String
deriving DecidableEq, Repr

/-- `struct Password`: a password input dialog. -/
structure Password where
  text : String
deriving DecidableEq, Repr

/-- `struct Question`: a yes/no question dialog. -/
structure Question where
  text : String
deriving DecidableEq, Repr

/-- `struct Menu`: a menu selection box; `list` is the already-flattened
name/value token list. -/
structure Menu where
  text : String
  menu_height : Nat
  list : List String
deriving DecidableEq, Repr

/-- `Menu::new`: flattens the name/value pairs in order. -/
def Menu.new (text : String) (menu_height : Nat) (list : List (String × String)) : Menu :=
  { text := text, menu_height := menu_height,
    list := list.flatMap (fun p => [p.1, p.2]) }

/-- One form field entry as passed to `Form::new` and friends:
(label, label-row, label-col, initial value, value-row, value-col,
field-width, input-limit). -/
abbrev FieldTuple := String × Nat × Nat × String × Nat × Nat × Nat × Nat

/-- The `format!("{} {} {} {} {} {} {} {}", ...)` flattening of one form
field entry performed by `Form::new`, `MixedForm::new` and
`PasswordForm::new`. -/
def flattenField : FieldTuple → String
  | (x1, x2, x3, x4, x5, x6, x7, x8) =>
    x1 ++ " " ++ natRepr x2 ++ " " ++ natRepr x3 ++ " " ++ x4 ++ " " ++ natRepr x5
      ++ " " ++ natRepr x6 ++ " " ++ natRepr x7 ++ " " ++ natRepr x8

/-- Parse one flattened field group back, following the spec's words: split
on whitespace, demand exactly eight tokens, and read the six numeric
positions back as decimal numerals. -/
def parseField (tokens : List String) : Option FieldTuple :=
  match tokens with
  | [x1, x2, x3, x4, x5, x6, x7, x8] =>
    match natParse x2, natParse x3, natParse x5, natParse x6, natParse x7, natParse x8 with
    | some n2, some n3, some n5, some n6, some n7, some n8 =>
      some (x1, n2, n3, x4, n5, n6, n7, n8)
    | _, _, _, _, _, _ => none
  | _ => none

/-- `struct Form`: a form box; `list` holds the flattened field strings. -/
structure Form where
  text : String
  form_height : Nat
  list : List String
deriving DecidableEq, Repr

/-- `Form::new`. -/
def Form.new (text : String) (form_height : Nat) (list : List FieldTuple) : Form :=
  { text := text, form_height := form_height, list := list.map flattenField }

/-- `struct MixedForm`. -/
structure MixedForm where
  text : String
  form_height : Nat
  list : List String
deriving DecidableEq, Repr

/-- `MixedForm::new`. -/
def MixedForm.new (text : String) (form_height : Nat) (list : List FieldTuple) : MixedForm :=
  { text := text, form_height := form_height, list := list.map flattenField }

/-- `struct PasswordForm`. -/
structure PasswordForm where
  text : String
  form_height : Nat
  list : List String
deriving DecidableEq, Repr

/-- `PasswordForm::new`. -/
def PasswordForm.new (text : String) (form_height : Nat)
    (list : List FieldTuple) : PasswordForm :=
  { text := text, form_height := form_height, list := list.map flattenField }

/-- `struct Gauge`. -/
structure Gauge where
  text : String
  percent : Nat
deriving DecidableEq, Repr

/-- `struct MixedGauge`. -/
structure MixedGauge where
  text : String
  percent : Nat
deriving DecidableEq, Repr

/-- `enum FileSelectionMode`. -/
inductive FileSelectionMode where
  | Open : FileSelectionMode
  | Save : FileSelectionMode
deriving DecidableEq, Repr

/-- `struct FileSelection`: paths are modelled as strings (the `to_str`
conversion of a UTF-8 `PathBuf`). -/
structure FileSelection where
  text : String
  path : Option String
  mode : FileSelectionMode
deriving DecidableEq, Repr

/-- `FileSelection::path_to_string`: the directory-existence test
`Path::is_dir` is an effect and is passed in as the oracle `is_dir`.  A path
that names an existing directory is returned with an enforced trailing
separator; anything else yields `none`. -/
def FileSelection.path_to_string (fs : FileSelection) (is_dir : String → Bool) :
    Option String :=
  match fs.path with
  | some path => if is_dir path then some (path ++ "/") else none
  | none => none

/-! ### The `Dialog` backend (`src/backends/dialog.rs`) -/

/-- `struct Dialog`: the shared configuration of the backend. -/
structure Dialog where
  backtitle : Option String
  title : Option String
  label_okbutton : Option String
  label_extrabutton : Option String
  label_cancelbutton : Option String
  label_helpbutton : Option String
  insecure : Bool
  cancelbutton : Bool
  width : String
  height : String
deriving DecidableEq, Repr

/-- `impl Default for Dialog`. -/
def Dialog.default : Dialog :=
  { backtitle := none
    title := none
    label_okbutton := none
    label_extrabutton := none
    label_cancelbutton := none
    label_helpbutton := none
    insecure := false
    cancelbutton := true
    height := "0"
    width := "0" }

/-- `Dialog::new`, which just takes the default configuration. -/
def Dialog.new : Dialog := Dialog.default

/-- The `common_options` vector built at the start of `Dialog::execute`, one
conditional push block per shared option, in source order. -/
def Dialog.commonOptions (d : Dialog) : List String :=
  let o : List String := []
  let o := match d.backtitle with
    | some backtitle => o ++ ["--backtitle", backtitle]
    | none => o
  let o := match d.title with
    | some title => o ++ ["--title", title]
    | none => o
  let o := match d.label_okbutton with
    | some label => o ++ ["--ok-label", label]
    | none => o
  let o := match d.label_extrabutton with
    | some label => o ++ ["--extra-button", "--extra-label", label]
    | none => o
  let o := match d.label_cancelbutton with
    | some label => o ++ ["--cancel-label", label]
    | none => o
  let o := match d.label_helpbutton with
    | some label => o ++ ["--help-button", "--help-label", label]
    | none => o
  let o := if !d.cancelbutton then o ++ ["--no-cancel"] else o
  let o := if d.insecure then o ++ ["--insecure"] else o
  o

/-- The full argument vector assembled by `Dialog::execute`: common options,
then the box-type flag, the optional box-type argument (the request text),
the height and width tokens, and finally the type-specific arguments. -/
def Dialog.execute_args (d : Dialog) (boxtype : String) (boxtype_arg : Option String)
    (args : List String) : List String :=
  d.commonOptions ++ [boxtype] ++
    (match boxtype_arg with | some a => [a] | none => []) ++
    [d.height, d.width] ++ args

/-- `Dialog::execute`: builds the argument vector and runs the external
program through the `spawn` oracle; `none` from the oracle models
`Command::output()` failing, mapped by the source through
`map_err(Error::IoError)`. -/
def Dialog.execute (d : Dialog) (boxtype : String) (boxtype_arg : Option String)
    (args : List String) (spawn : List String → Option Output) : Except Error Output :=
  match spawn (d.execute_args boxtype boxtype_arg args) with
  | some out => Except.ok out
  | none => Except.error Error.SpawnError

/-- `require_success`: exit status `0` is success, anything else is
`ExternalToolFailed`. -/
def require_success (status : Option Int) : Except Error Unit :=
  if status = some 0 then Except.ok ()
  else Except.error (Error.ExternalToolFailed "dialog" status)

/-- `get_choice`: the boolean-style classifier used by `Question`. -/
def get_choice (status : Option Int) : Except Error Choice :=
  match status with
  | some code =>
    if code = 0 then Except.ok Choice.Yes
    else if code = 1 then Except.ok Choice.No
    else if code = 255 then Except.ok Choice.Escape
    else Except.error (Error.ExternalToolFailed "dialog" status)
  | none => Except.error (Error.ExternalToolFailed "dialog" status)

/-- `get_choices`: the choice-plus-text classifier.  The source decodes the
captured error stream with `String::from_utf8(...).map(Some).unwrap()` before
inspecting the code; the `unwrap` panic on invalid UTF-8 is modelled by the
outer `none`. -/
def get_choices (output : Output) : Option (Except Error (Choice × Option String)) :=
  match output.status with
  | some code =>
    match utf8Decode output.stderr with
    | some s =>
      let output_dialog : Option String := some s
      some (if code = 0 then Except.ok (Choice.Yes, output_dialog)
        else if code = 1 then Except.ok (Choice.Cancel, output_dialog)
        else if code = 2 then Except.ok (Choice.Help, output_dialog)
        else if code = 3 then Except.ok (Choice.Extra, output_dialog)
        else if code = 255 then Except.ok (Choice.Escape, output_dialog)
        else Except.error (Error.ExternalToolFailed "dialog" output.status))
    | none => none
  | none => some (Except.error (Error.ExternalToolFailed "dialog" output.status))

/-- `.and_then(get_choices)` on the result of `Dialog::execute`. -/
def andThenChoices (r : Except Error Output) :
    Option (Except Error (Choice × Option String)) :=
  match r with
  | Except.ok out => get_choices out
  | Except.error e => some (Except.error e)

/-- `Backend::show_file_selection` for the `Dialog` backend. -/
def Dialog.show_file_selection (d : Dialog) (fs : FileSelection)
    (is_dir : String → Bool) (spawn : List String → Option Output) :
    Option (Except Error (Choice × Option String)) :=
  match fs.path_to_string is_dir with
  | some dir => andThenChoices (d.execute "--fselect" (some dir) [] spawn)
  | none => some (Except.error Error.InvalidPath)

/-- `Backend::show_form` for the `Dialog` backend. -/
def Dialog.show_form (d : Dialog) (form : Form)
    (spawn : List String → Option Output) :
    Option (Except Error (Choice × Option String)) :=
  andThenChoices (d.execute "--form" (some form.text)
    (natRepr form.form_height :: form.list) spawn)

/-- `Backend::show_gauge` for the `Dialog` backend (note: the source passes
the `--mixedgauge` box type here as well). -/
def Dialog.show_gauge (d : Dialog) (gauge : Gauge)
    (spawn : List String → Option Output) : Except Error Unit :=
  match d.execute "--mixedgauge" (some gauge.text) [natRepr gauge.percent] spawn with
  | Except.ok out => require_success out.status
  | Except.error e => Except.error e

/-- `Backend::show_input` for the `Dialog` backend. -/
def Dialog.show_input (d : Dialog) (input : Input)
    (spawn : List String → Option Output) :
    Option (Except Error (Choice × Option String)) :=
  andThenChoices (d.execute "--inputbox" (some input.text)
    (match input.default with | some dflt => [dflt] | none => []) spawn)

/-- `Backend::show_menu` for the `Dialog` backend. -/
def Dialog.show_menu (d : Dialog) (menu : Menu)
    (spawn : List String → Option Output) :
    Option (Except Error (Choice × Option String)) :=
  andThenChoices (d.execute "--menu" (some menu.text)
    (natRepr menu.menu_height :: menu.list) spawn)

/-- `Backend::show_mixed_gauge` for the `Dialog` backend. -/
def Dialog.show_mixed_gauge (d : Dialog) (gauge : MixedGauge)
    (spawn : List String → Option Output) : Except Error Unit :=
  match d.execute "--mixedgauge" (some gauge.text) [natRepr gauge.percent] spawn with
  | Except.ok out => require_success out.status
  | Except.error e => Except.error e

/-- `Backend::show_mixed_form` for the `Dialog` backend. -/
def Dialog.show_mixed_form (d : Dialog) (form : MixedForm)
    (spawn : List String → Option Output) :
    Option (Except Error (Choice × Option String)) :=
  andThenChoices (d.execute "--mixedform" (some form.text)
    (natRepr form.form_height :: form.list) spawn)

/-- `Backend::show_password` for the `Dialog` backend. -/
def Dialog.show_password (d : Dialog) (password : Password)
    (spawn : List String → Option Output) :
    Option (Except Error (Choice × Option String)) :=
  andThenChoices (d.execute "--passwordbox" (some password.text) [] spawn)

/-- `Backend::show_password_form` for the `Dialog` backend. -/
def Dialog.show_password_form (d : Dialog) (form : PasswordForm)
    (spawn : List String → Option Output) :
    Option (Except Error (Choice × Option String)) :=
  andThenChoices (d.execute "--passwordform" (some form.text)
    (natRepr form.form_height :: form.list) spawn)

/-- `Backend::show_question` for the `Dialog` backend. -/
def Dialog.show_question (d : Dialog) (question : Question)
    (spawn : List String → Option Output) : Except Error Choice :=
  match d.execute "--yesno" (some question.text) [] spawn with
  | Except.ok out => get_choice out.status
  | Except.error e => Except.error e

/-! ### Backend registry (`src/backends/mod.rs` and `default_backend`) -/

/-- The closed set of backend implementations: only the built-in `Dialog`
backend exists, carrying its configuration (`Dialog::new()`). -/
inductive Backend where
  | dialog (cfg : Dialog) : Backend
deriving DecidableEq, Repr

/-- `backends::from_str`: case-insensitive lookup in the fixed registry. -/
def from_str (s : String) : Option Backend :=
  if rustToLowercase s = "dialog" then some (Backend.dialog Dialog.new) else none

/-- `default_backend`: consult the `DIALOG` environment variable (its value is
passed in as `dialogEnv`, `none` meaning unset); unrecognized or absent values
fall back to the built-in `Dialog` backend. -/
def default_backend (dialogEnv : Option String) : Backend :=
  match dialogEnv with
  | some v =>
    match from_str v with
    | some b => b
    | none => Backend.dialog Dialog.new
  | none => Backend.dialog Dialog.new

/-- The exit-code-to-result table of the choice-plus-text classifier, used to
state the classification claims. -/
def classifyChoices (code : Int) (status : Option Int) (s : String) :
    Except Error (Choice × Option String) :=
  if code = 0 then Except.ok (Choice.Yes, some s)
  else if code = 1 then Except.ok (Choice.Cancel, some s)
  else if code = 2 then Except.ok (Choice.Help, some s)
  else if code = 3 then Except.ok (Choice.Extra, some s)
  else if code = 255 then Except.ok (Choice.Escape, some s)
  else Except.error (Error.ExternalToolFailed "dialog" status)

/-! ### Helper lemmas -/

theorem natDigitsRec_ne_nil (f n : Nat) (h : n < f) : natDigitsRec f n ≠ [] := by
  cases f with
  | zero => omega
  | succ f => by_cases h10 : n < 10 <;> simp [natDigitsRec, h10]

theorem natDigitsRec_all_digit (f : Nat) :
    ∀ n, n < f → ∀ c ∈ natDigitsRec f n, c.isDigit = true := by
  induction f with
  | zero => intro n h; omega
  | succ f ih =>
    intro n h c hc
    by_cases h10 : n < 10
    · simp [natDigitsRec, h10] at hc
      subst hc
      interval_cases n <;> decide
    · simp only [natDigitsRec, if_neg h10, List.mem_append, List.mem_singleton] at hc
      rcases hc with hc | hc
      · exact ih (n / 10) (by omega) c hc
      · subst hc
        have : n % 10 < 10 := Nat.mod_lt _ (by omega)
        interval_cases h : (n % 10) <;> decide

theorem parseNatFold_digitsRec (f : Nat) : ∀ n a, n < f →
    parseNatFold (natDigitsRec f n) a = a * 10 ^ (natDigitsRec f n).length + n := by
  induction f with
  | zero => intro n a h; omega
  | succ f ih =>
    intro n a h
    by_cases h10 : n < 10
    · have hc : (Char.ofNat (48 + n)).toNat = 48 + n := by interval_cases n <;> decide
      simp [natDigitsRec, h10, parseNatFold, hc]
    · have hrec : n / 10 < f := by omega
      have := ih (n / 10) a hrec
      simp only [natDigitsRec, if_neg h10, parseNatFold, List.foldl_append] at *
      have hc : (Char.ofNat (48 + n % 10)).toNat = 48 + n % 10 := by
        have : n % 10 < 10 := Nat.mod_lt _ (by omega)
        interval_cases h : (n % 10) <;> decide
      simp [List.foldl, hc, List.length_append]
      rw [this]
      ring_nf
      omega

theorem natParse_natRepr (n : Nat) : natParse (natRepr n) = some n := by
  have hall := natDigitsRec_all_digit (n + 1) n (by omega)
  have hne := natDigitsRec_ne_nil (n + 1) n (by omega)
  have hfold := parseNatFold_digitsRec (n + 1) n 0 (by omega)
  have htl : (natRepr n).toList = natDigitsRec (n + 1) n := rfl
  simp only [natParse, htl, natDigits]
  rw [if_pos]
  · rw [hfold]; simp
  · simp [List.all_eq_true, List.isEmpty_iff, hne]
    exact hall

theorem digit_not_ws (c : Char) (h : c.isDigit = true) : c.isWhitespace = false := by
  by_contra hw
  rw [Bool.not_eq_false] at hw
  simp only [Char.isWhitespace, Bool.or_eq_true, decide_eq_true_eq] at hw
  rcases hw with ((rfl | rfl) | rfl) | rfl <;> exact absurd h (by decide)

theorem splitWSAux_chunk (t : List Char) : ∀ acc rest, (∀ c ∈ t, c.isWhitespace = false) →
    splitWSAux (t ++ rest) acc = splitWSAux rest (t.reverse ++ acc) := by
  induction t with
  | nil => intro acc rest _; simp
  | cons c t ih =>
    intro acc rest h
    have hc : c.isWhitespace = false := h c (by simp)
    rw [List.cons_append]
    show (if c.isWhitespace then emitTok acc ++ splitWSAux (t ++ rest) []
      else splitWSAux (t ++ rest) (c :: acc)) = _
    rw [hc]
    simp only [Bool.false_eq_true, if_false]
    rw [ih (c :: acc) rest (fun x hx => h x (List.mem_cons_of_mem _ hx))]
    simp

theorem splitWSAux_final (t : List Char) (h : t ≠ [])
    (hw : ∀ c ∈ t, c.isWhitespace = false) : splitWSAux t [] = [t] := by
  have := splitWSAux_chunk t [] [] hw
  simp [splitWSAux, emitTok, h] at this ⊢
  simpa using this

/-- Join character-list tokens with single spaces, the shape produced by the
`format!` flattening. -/
def joinSpace : List (List Char) → List Char
  | [] => []
  | [t] => t
  | t :: ts => t ++ ' ' :: joinSpace ts

theorem splitWSAux_join (tokens : List (List Char))
    (h : ∀ t ∈ tokens, t ≠ [] ∧ ∀ c ∈ t, c.isWhitespace = false) :
    splitWSAux (joinSpace tokens) [] = tokens := by
  induction tokens with
  | nil => rfl
  | cons t ts ih =>
    obtain ⟨hne, hw⟩ := h t (List.mem_cons_self t ts)
    cases ts with
    | nil => simpa [joinSpace] using splitWSAux_final t hne hw
    | cons t' ts' =>
      have hj : joinSpace (t :: t' :: ts') = t ++ ' ' :: joinSpace (t' :: ts') := rfl
      rw [hj, splitWSAux_chunk t [] (' ' :: joinSpace (t' :: ts')) hw]
      show (if (' ').isWhitespace then
          emitTok (t.reverse ++ []) ++ splitWSAux (joinSpace (t' :: ts')) []
        else splitWSAux (joinSpace (t' :: ts')) (' ' :: (t.reverse ++ []))) = _
      rw [ih (fun x hx => h x (List.mem_cons_of_mem _ hx))]
      simp [emitTok, hne]

theorem flattenField_toList (x1 x4 : String) (x2 x3 x5 x6 x7 x8 : Nat) :
    (flattenField (x1, x2, x3, x4, x5, x6, x7, x8)).toList =
      joinSpace [x1.toList, natDigits x2, natDigits x3, x4.toList, natDigits x5,
        natDigits x6, natDigits x7, natDigits x8] := by
  show (x1 ++ " " ++ natRepr x2 ++ " " ++ natRepr x3 ++ " " ++ x4 ++ " " ++ natRepr x5
      ++ " " ++ natRepr x6 ++ " " ++ natRepr x7 ++ " " ++ natRepr x8).toList = _
  simp only [String.toList, String.data_append, joinSpace, natRepr]
  simp [List.append_assoc]

theorem get_choices_eq (out : Output) (code : Int) (s : String)
    (hc : out.status = some code) (hs : utf8Decode out.stderr = some s) :
    get_choices out = some (classifyChoices code out.status s) := by
  simp only [get_choices, classifyChoices, hc, hs]

theorem get_choice_ok_cases (status : Option Int) (ch : Choice)
    (h : get_choice status = Except.ok ch) :
    ch = Choice.Yes ∨ ch = Choice.No ∨ ch = Choice.Escape := by
  rcases status with _ | c
  · exact absurd h (by simp [get_choice])
  · simp only [get_choice] at h
    split_ifs at h <;> simp_all

/-! ### Claims -/

/-- Claim C1: for every choice-plus-text dialog invocation (Input, Password,
Menu, each Form variant, FileSelection) whose subprocess terminates with an
exit code, the classifier maps exit code 0 to (Yes, text), 1 to (Cancel,
text), 2 to (Help, text), 3 to (Extra, text), 255 to (Escape, text) — the
text component being the decoded captured error-stream content verbatim,
embedded newlines included — and any other exit code to an
`ExternalToolFailed` error carrying the status. -/
theorem C1_choice_text_classification
    (d : Dialog) (out : Output) (code : Int) (s : String)
    (hc : out.status = some code) (hs : utf8Decode out.stderr = some s)
    (input : Input) (password : Password) (menu : Menu) (form : Form)
    (mform : MixedForm) (pform : PasswordForm) (fs : FileSelection)
    (is_dir : String → Bool) (dir : String)
    (hfs : fs.path_to_string is_dir = some dir) :
    d.show_input input (fun _ => some out) = some (classifyChoices code out.status s) ∧
    d.show_password password (fun _ => some out) = some (classifyChoices code out.status s) ∧
    d.show_menu menu (fun _ => some out) = some (classifyChoices code out.status s) ∧
    d.show_form form (fun _ => some out) = some (classifyChoices code out.status s) ∧
    d.show_mixed_form mform (fun _ => some out) = some (classifyChoices code out.status s) ∧
    d.show_password_form pform (fun _ => some out) = some (classifyChoices code out.status s) ∧
    d.show_file_selection fs is_dir (fun _ => some out)
      = some (classifyChoices code out.status s) := by
  have h := get_choices_eq out code s hc hs
  refine ⟨?_, ?_, ?_, ?_, ?_, ?_, ?_⟩ <;>
    simp [Dialog.show_input, Dialog.show_password, Dialog.show_menu, Dialog.show_form,
      Dialog.show_mixed_form, Dialog.show_password_form, Dialog.show_file_selection,
      Dialog.execute, andThenChoices, hfs, h]

/-- Witness for C1: exit code 2 on a Menu invocation with multi-line captured
output yields Help paired with the verbatim text. -/
theorem C1_witness :
    Dialog.default.show_menu { text := "m", menu_height := 5, list := ["a", "1"] }
        (fun _ => some { status := some 2, stderr := [104, 105, 10, 116] })
      = some (Except.ok (Choice.Help, some "hi\nt")) := by
  have h := C1_choice_text_classification Dialog.default
    { status := some 2, stderr := [104, 105, 10, 116] } 2 "hi\nt" rfl (by decide)
    { text := "i", default := none } { text := "p" }
    { text := "m", menu_height := 5, list := ["a", "1"] }
    { text := "f", form_height := 2, list := [] }
    { text := "f", form_height := 2, list := [] }
    { text := "f", form_height := 2, list := [] }
    { text := "fs", path := some "/etc", mode := FileSelectionMode.Open }
    (fun _ => true) "/etc/" (by decide)
  simpa [classifyChoices] using h.2.2.1

/-- Claim C2: a Question invocation maps exit code 0 to Yes, 1 to No, 255 to
Escape and anything else to an `ExternalToolFailed` error carrying the
status; no other `Choice` value is ever produced by a Question. -/
theorem C2_question_classification
    (d : Dialog) (q : Question) (out : Output) (code : Int)
    (hc : out.status = some code) :
    d.show_question q (fun _ => some out) =
      (if code = 0 then Except.ok Choice.Yes
       else if code = 1 then Except.ok Choice.No
       else if code = 255 then Except.ok Choice.Escape
       else Except.error (Error.ExternalToolFailed "dialog" out.status)) ∧
    (∀ spawn ch, d.show_question q spawn = Except.ok ch →
      ch = Choice.Yes ∨ ch = Choice.No ∨ ch = Choice.Escape) := by
  constructor
  · simp [Dialog.show_question, Dialog.execute, get_choice, hc]
  · intro spawn ch h
    unfold Dialog.show_question Dialog.execute at h
    rcases hsp : spawn (d.execute_args "--yesno" (some q.text) []) with _ | out'
    · rw [hsp] at h
      exact absurd h (by simp)
    · rw [hsp] at h
      exact get_choice_ok_cases out'.status ch h

/-- Witness for C2: exit code 1 yields No, exit code 42 yields
`ExternalToolFailed`. -/
theorem C2_witness :
    Dialog.default.show_question { text := "q" }
        (fun _ => some { status := some 1, stderr := [] }) = Except.ok Choice.No ∧
    Dialog.default.show_question { text := "q" }
        (fun _ => some { status := some 42, stderr := [] })
      = Except.error (Error.ExternalToolFailed "dialog" (some 42)) := by
  constructor
  · have h := C2_question_classification Dialog.default { text := "q" }
      { status := some 1, stderr := [] } 1 rfl
    simpa using h.1
  · have h := C2_question_classification Dialog.default { text := "q" }
      { status := some 42, stderr := [] } 42 rfl
    simpa using h.1

/-- Claim C3: a FileSelection whose path does not name an existing directory
fails with `InvalidPath` independently of the spawn oracle (so before any
process is spawned); a path naming an existing directory serializes to the
original path with an enforced trailing separator. -/
theorem C3_file_selection_path
    (d : Dialog) (fs : FileSelection) (is_dir : String → Bool) :
    (fs.path_to_string is_dir = none →
      ∀ spawn, d.show_file_selection fs is_dir spawn
        = some (Except.error Error.InvalidPath)) ∧
    (∀ p, fs.path = some p → is_dir p = false → fs.path_to_string is_dir = none) ∧
    (fs.path = none → fs.path_to_string is_dir = none) ∧
    (∀ p, fs.path = some p → is_dir p = true →
      fs.path_to_string is_dir = some (p ++ "/")) := by
  refine ⟨?_, ?_, ?_, ?_⟩
  · intro hnone spawn
    simp [Dialog.show_file_selection, hnone]
  · intro p hp hdir
    simp [FileSelection.path_to_string, hp, hdir]
  · intro hp
    simp [FileSelection.path_to_string, hp]
  · intro p hp hdir
    simp [FileSelection.path_to_string, hp, hdir]

/-- Witness for C3: a non-directory path yields `InvalidPath` whatever the
spawn oracle does, and `/etc` serializes to `/etc/`. -/
theorem C3_witness :
    Dialog.default.show_file_selection
        { text := "fs", path := some "/nope", mode := FileSelectionMode.Open }
        (fun _ => false) (fun _ => some { status := some 0, stderr := [] })
      = some (Except.error Error.InvalidPath) ∧
    FileSelection.path_to_string
        { text := "fs", path := some "/etc", mode := FileSelectionMode.Open }
        (fun _ => true) = some "/etc/" := by
  constructor
  · exact (C3_file_selection_path Dialog.default
      { text := "fs", path := some "/nope", mode := FileSelectionMode.Open }
      (fun _ => false)).1 (by decide) _
  · have h := (C3_file_selection_path Dialog.default
      { text := "fs", path := some "/etc", mode := FileSelectionMode.Open }
      (fun _ => true)).2.2.2 "/etc" rfl rfl
    simpa using h

theorem string_mk_toList (s : String) : String.mk s.toList = s := by
  cases s
  rfl

/-- Claim C4 counterexample: the field tuple ("a b", 0, 0, "c", 0, 0, 0, 0),
whose label contains a space, flattens to "a b 0 0 c 0 0 0 0"; splitting on
whitespace yields nine tokens, so parsing fails to recover the tuple. -/
theorem C4_counterexample :
    parseField (splitWhitespace (flattenField ("a b", 0, 0, "c", 0, 0, 0, 0))) = none ∧
    parseField (splitWhitespace (flattenField ("a b", 0, 0, "c", 0, 0, 0, 0)))
      ≠ some ("a b", 0, 0, "c", 0, 0, 0, 0) := by
  constructor
  · rfl
  · intro h
    rw [show parseField (splitWhitespace (flattenField ("a b", 0, 0, "c", 0, 0, 0, 0)))
        = none from rfl] at h
    exact Option.noConfusion h

/-- Claim C4 amended: for every form field tuple whose label and initial
value are nonempty and free of whitespace, serializing the tuple into its
flattened whitespace-joined eight-token group and parsing that group back by
splitting on whitespace recovers the original eight fields exactly, and
`Form`/`MixedForm`/`PasswordForm` construction preserves entry order in the
serialized list. -/
theorem C4_form_field_roundtrip_amended
    (x1 x4 : String) (x2 x3 x5 x6 x7 x8 : Nat)
    (h1n : x1.toList ≠ []) (h1w : ∀ c ∈ x1.toList, c.isWhitespace = false)
    (h4n : x4.toList ≠ []) (h4w : ∀ c ∈ x4.toList, c.isWhitespace = false)
    (text : String) (fh : Nat) (fields : List FieldTuple) :
    parseField (splitWhitespace (flattenField (x1, x2, x3, x4, x5, x6, x7, x8)))
      = some (x1, x2, x3, x4, x5, x6, x7, x8) ∧
    (Form.new text fh fields).list = fields.map flattenField ∧
    (MixedForm.new text fh fields).list = fields.map flattenField ∧
    (PasswordForm.new text fh fields).list = fields.map flattenField := by
  refine ⟨?_, rfl, rfl, rfl⟩
  have hd : ∀ n : Nat, natDigits n ≠ [] ∧ ∀ c ∈ natDigits n, c.isWhitespace = false := by
    intro n
    refine ⟨natDigitsRec_ne_nil _ _ (by omega), fun c hc => ?_⟩
    exact digit_not_ws c (natDigitsRec_all_digit _ _ (by omega) c hc)
  have hsplit : splitWhitespace (flattenField (x1, x2, x3, x4, x5, x6, x7, x8)) =
      [x1, natRepr x2, natRepr x3, x4, natRepr x5, natRepr x6, natRepr x7, natRepr x8] := by
    unfold splitWhitespace
    rw [flattenField_toList, splitWSAux_join]
    · simp only [List.map_cons, List.map_nil, string_mk_toList]
      rfl
    · intro t ht
      simp only [List.mem_cons, List.not_mem_nil, or_false] at ht
      rcases ht with rfl | rfl | rfl | rfl | rfl | rfl | rfl | rfl
      exacts [⟨h1n, h1w⟩, hd x2, hd x3, ⟨h4n, h4w⟩, hd x5, hd x6, hd x7, hd x8]
  rw [hsplit]
  simp [parseField, natParse_natRepr]

/-- Witness for C4 (amended): a concrete whitespace-free field tuple
round-trips. -/
theorem C4_witness :
    parseField (splitWhitespace (flattenField ("name", 1, 2, "value", 3, 4, 10, 20)))
      = some ("name", 1, 2, "value", 3, 4, 10, 20) := by
  have h := C4_form_field_roundtrip_amended "name" "value" 1 2 3 4 10 20
    (by decide) (by decide) (by decide) (by decide) "t" 0 []
  exact h.1

/-- Claim C5 counterexample: with only the insecure flag set, the emitted
shared-option tokens are the single flag token "--insecure" with no value
token, and with only the extra-button label set they are two flag tokens
followed by the value token — so a set shared option is not always emitted
as exactly one flag token followed by exactly one value token. -/
theorem C5_counterexample :
    Dialog.commonOptions { Dialog.default with insecure := true } = ["--insecure"] ∧
    (Dialog.commonOptions { Dialog.default with insecure := true }).length ≠ 2 ∧
    Dialog.commonOptions { Dialog.default with label_extrabutton := some "More" }
      = ["--extra-button", "--extra-label", "More"] ∧
    (Dialog.commonOptions
      { Dialog.default with label_extrabutton := some "More" }).length ≠ 2 := by
  decide

/-- Claim C5 amended: the shared options are emitted before the box-type
flag, in source order; backtitle, title, OK-button label and cancel-button
label each contribute one flag token followed by one value token when set;
the extra-button and help-button labels each contribute two flag tokens
followed by the value token; the insecure flag and cancel-button suppression
each contribute a single flag token; an unset option contributes no
tokens. -/
theorem C5_shared_options_amended (d : Dialog) (boxtype : String)
    (boxtype_arg : Option String) (args : List String) :
    d.commonOptions =
      (match d.backtitle with | some b => ["--backtitle", b] | none => []) ++
      (match d.title with | some t => ["--title", t] | none => []) ++
      (match d.label_okbutton with | some l => ["--ok-label", l] | none => []) ++
      (match d.label_extrabutton with
        | some l => ["--extra-button", "--extra-label", l] | none => []) ++
      (match d.label_cancelbutton with | some l => ["--cancel-label", l] | none => []) ++
      (match d.label_helpbutton with
        | some l => ["--help-button", "--help-label", l] | none => []) ++
      (if d.cancelbutton then [] else ["--no-cancel"]) ++
      (if d.insecure then ["--insecure"] else []) ∧
    d.execute_args boxtype boxtype_arg args =
      d.commonOptions ++ [boxtype] ++
        (match boxtype_arg with | some a => [a] | none => []) ++
        [d.height, d.width] ++ args := by
  constructor
  · obtain ⟨bt, ti, ok, ex, ca, he, ins, cb, w, hg⟩ := d
    rcases bt with _ | bt <;> rcases ti with _ | ti <;> rcases ok with _ | ok <;>
      rcases ex with _ | ex <;> rcases ca with _ | ca <;> rcases he with _ | he <;>
      rcases ins <;> rcases cb <;> rfl
  · rfl

/-- Claim C6: with a freshly constructed default configuration (no optional
field set) the serialized argument list is exactly the box-type flag, the
request text, the height token "0" and the width token "0", followed only by
the type-specific arguments. -/
theorem C6_default_args (boxtype : String) (text : String) (args : List String) :
    Dialog.new.commonOptions = [] ∧
    Dialog.new.execute_args boxtype (some text) args
      = boxtype :: text :: "0" :: "0" :: args :=
  ⟨rfl, rfl⟩

/-- Claim C7: the choice-plus-text classifier decodes the captured bytes as
UTF-8 and does not surface a decoding failure as a recoverable typed error:
when the subprocess exited with a code, its success path is total exactly
when the bytes are valid UTF-8, invalid bytes reach the programmer-fatal
`unwrap` (modelled by `none`), and no classification outcome is ever the
typed `InvalidEncoding` error. -/
theorem C7_invalid_utf8_is_panic
    (out : Output) (code : Int) (hc : out.status = some code) :
    (get_choices out = none ↔ utf8Decode out.stderr = none) ∧
    (∀ r, get_choices out = some r → r ≠ Except.error Error.InvalidEncoding) := by
  constructor
  · rcases hdec : utf8Decode out.stderr with _ | s
    · simp [get_choices, hc, hdec]
    · simp [get_choices, hc, hdec]
  · intro r hr
    rcases hdec : utf8Decode out.stderr with _ | s
    · simp only [get_choices, hc, hdec] at hr
      exact Option.noConfusion hr
    · simp only [get_choices, hc, hdec, Option.some.injEq] at hr
      subst hr
      split_ifs <;> simp

/-- Witness for C7: the invalid UTF-8 byte 255 makes the classifier panic
instead of returning a typed error. -/
theorem C7_witness :
    get_choices { status := some 0, stderr := [255] } = none ∧
    utf8Decode [255] = none := by
  have h := C7_invalid_utf8_is_panic { status := some 0, stderr := [255] } 0 rfl
  exact ⟨h.1.mpr (by decide), by decide⟩

/-- Claim C8: backend selection matches the given value case-insensitively
against the fixed registry: the lookup returns the built-in Dialog backend
exactly when the lowercased string is "dialog" (and never returns anything
else), and `default_backend` falls back to the built-in Dialog backend on
unrecognized or absent values. -/
theorem C8_backend_selection (s : String) :
    (from_str s = some (Backend.dialog Dialog.new) ↔ rustToLowercase s = "dialog") ∧
    (∀ b, from_str s = some b → b = Backend.dialog Dialog.new) ∧
    (from_str s = none → default_backend (some s) = Backend.dialog Dialog.new) ∧
    default_backend none = Backend.dialog Dialog.new := by
  refine ⟨?_, ?_, ?_, rfl⟩
  · unfold from_str
    split_ifs with h
    · simp [h]
    · simp [h]
  · intro b hb
    unfold from_str at hb
    split_ifs at hb with h
    simpa using hb.symm
  · intro hnone
    simp only [default_backend, hnone]

/-- Witness for C8: "DiAlOg" selects the built-in backend, "gtk" is
unrecognized and falls back to it. -/
theorem C8_witness :
    from_str "DiAlOg" = some (Backend.dialog Dialog.new) ∧
    from_str "gtk" = none ∧
    default_backend (some "gtk") = Backend.dialog Dialog.new := by
  refine ⟨?_, ?_, ?_⟩
  · exact (C8_backend_selection "DiAlOg").1.mpr (by decide)
  · rfl
  · exact (C8_backend_selection "gtk").2.2.1 rfl

/-- Claim C9: every successful choice-plus-text classification pairs the
choice with `some` decoded error-stream text, never `none` — including
Cancel and Escape outcomes, where the decoded string may simply be empty. -/
theorem classifyChoices_ok_snd (code : Int) (status : Option Int) (s : String)
    (r : Choice × Option String)
    (h : classifyChoices code status s = Except.ok r) : r.2 = some s := by
  unfold classifyChoices at h
  split_ifs at h <;> (injection h with h2; subst h2; rfl)

theorem C9_text_component_always_some
    (out : Output) (r : Choice × Option String)
    (h : get_choices out = some (Except.ok r)) :
    ∃ s, utf8Decode out.stderr = some s ∧ r.2 = some s := by
  rcases hst : out.status with _ | code
  · simp only [get_choices, hst] at h
    simp at h
  · rcases hdec : utf8Decode out.stderr with _ | s
    · simp only [get_choices, hst, hdec] at h
      exact Option.noConfusion h
    · have hcls := get_choices_eq out code s hst hdec
      rw [hcls] at h
      exact ⟨s, rfl, classifyChoices_ok_snd code out.status s r (Option.some.inj h)⟩

/-- Witness for C9: an exit code 0 with empty captured output yields
`some ""` for the text component, not `none`. -/
theorem C9_witness :
    ∃ s, utf8Decode ([] : List Nat) = some s ∧
      ((Choice.Yes, some "") : Choice × Option String).2 = some s :=
  C9_text_component_always_some { status := some 0, stderr := [] }
    (Choice.Yes, some "") rfl

/-- Claim C10: a Gauge and a MixedGauge constructed from the same text and
percentage produce identical external invocations under the `Dialog`
backend: both pass the `--mixedgauge` box type with the same text and
percentage token, and classify the result identically (exit status 0 yields
success, any other status an `ExternalToolFailed` error, a spawn failure a
`SpawnError`). -/
theorem C10_gauge_equals_mixed_gauge
    (d : Dialog) (text : String) (percent : Nat)
    (spawn : List String → Option Output) :
    d.show_gauge { text := text, percent := percent } spawn
      = d.show_mixed_gauge { text := text, percent := percent } spawn ∧
    (∀ out, spawn (d.execute_args "--mixedgauge" (some text) [natRepr percent]) = some out →
      d.show_gauge { text := text, percent := percent } spawn
        = (if out.status = some 0 then Except.ok ()
           else Except.error (Error.ExternalToolFailed "dialog" out.status))) ∧
    (spawn (d.execute_args "--mixedgauge" (some text) [natRepr percent]) = none →
      d.show_gauge { text := text, percent := percent } spawn
        = Except.error Error.SpawnError) := by
  refine ⟨rfl, ?_, ?_⟩
  · intro out hout
    simp [Dialog.show_gauge, Dialog.execute, hout, require_success]
  · intro hnone
    simp [Dialog.show_gauge, Dialog.execute, hnone]

/-- Witness for C10: with exit status 0 both gauges succeed. -/
theorem C10_witness :
    Dialog.default.show_gauge { text := "t", percent := 50 }
        (fun _ => some { status := some 0, stderr := [] }) = Except.ok () := by
  have h := C10_gauge_equals_mixed_gauge Dialog.default "t" 50
    (fun _ => some { status := some 0, stderr := [] })
  simpa using h.2.1 { status := some 0, stderr := [] } rfl

end DialogRs

